import Mathlib

/-!
Verification of `main.py` of OTS_Unisim, a Tkinter viewer polling a UniSim
COM simulation.  Python numbers are embedded as rationals (exact arithmetic),
fallible COM getters as `Except String ℚ`, and the stateful `LivePlot`
window as explicit state passing.  Every definition is translated from
`src/main.py`.
-/

/-- Constant `INLET_STREAM = "Inlet"` (main.py line 26). -/
def INLET_STREAM : String := "Inlet"

/-- Constant `OUTLET_STREAM = "Outlet"` (main.py line 27). -/
def OUTLET_STREAM : String := "Outlet"

/-- Constant `MAX_POINTS = 1200` (main.py line 29): keep at most this many samples. -/
def MAX_POINTS : Nat := 1200

/-- Constant `UPDATE_MS = 500` (main.py line 30): default refresh interval. -/
def UPDATE_MS : ℚ := 500

/-- Lower end of the refresh slider: `ttk.Scale(..., from_=200, ...)`
(main.py line 106). -/
def SCALE_FROM : ℚ := 200

/-- Upper end of the refresh slider: `ttk.Scale(..., to=3000, ...)`
(main.py line 106). -/
def SCALE_TO : ℚ := 3000

/-- The epsilon `1e-6` used to pad equal y-extremes (main.py lines 140-141). -/
def EPS : ℚ := 1 / 1000000

/-- Semantics of `collections.deque(maxlen=m).append(v)`: the value is
appended on the right and, when the maximum length is exceeded, elements
are discarded from the left until the length is `m` again. -/
def dequeAppend (maxlen : Nat) (xs : List ℚ) (v : ℚ) : List ℚ :=
  if maxlen < (xs ++ [v]).length then
    (xs ++ [v]).drop ((xs ++ [v]).length - maxlen)
  else xs ++ [v]

/-- The value `np.min(y_data)` over a nonempty sample buffer (main.py line 137); `0` on the
empty list, which the code never reaches since it is guarded by
`len(y_data) > 0`. -/
def listMin : List ℚ → ℚ
  | [] => 0
  | a :: as => as.foldl min a

/-- The value `np.max(y_data)` over a nonempty sample buffer (main.py line 138). -/
def listMax : List ℚ → ℚ
  | [] => 0
  | a :: as => as.foldl max a

/-- The quantity `new_ymin` as used by `_update` after the equal-extremes padding
(main.py lines 137-141): `np.min(y_data)`, minus `1e-6` when minimum and
maximum coincide. -/
def new_ymin (yData : List ℚ) : ℚ :=
  if listMin yData = listMax yData then listMin yData - EPS else listMin yData

/-- The quantity `new_ymax` as used by `_update` after the equal-extremes padding
(main.py lines 138-141): `np.max(y_data)`, plus `1e-6` when minimum and
maximum coincide. -/
def new_ymax (yData : List ℚ) : ℚ :=
  if listMin yData = listMax yData then listMax yData + EPS else listMax yData

/-- The `update_ylim` flag (main.py lines 143-148): recompute the y-limits
when there are no cached limits yet (first update), or when the padded
extremes leave the tolerance band
`new_ymin < current_ymin * 0.99 or new_ymax > current_ymax * 1.01`. -/
def update_ylim (cur_ymin cur_ymax : Option ℚ) (yData : List ℚ) : Bool :=
  match cur_ymin, cur_ymax with
  | some cmin, some cmax =>
      decide (new_ymin yData < cmin * (99 / 100)) ||
      decide (new_ymax yData > cmax * (101 / 100))
  | _, _ => true

/-- The mutable state of a `LivePlot` window that the `_update` callback
reads and writes (main.py lines 86-113): the two sample deques, the cached
y-limits `current_ymin` / `current_ymax` (`None` before the first update),
the axes limits set through `set_xlim` / `set_ylim`, and the refresh
interval variable. -/
structure LivePlotState where
  x : List ℚ
  y : List ℚ
  current_ymin : Option ℚ
  current_ymax : Option ℚ
  xlim : Option (ℚ × ℚ)
  ylim : Option (ℚ × ℚ)
  interval : ℚ
deriving Repr, DecidableEq

/-- The state of a `LivePlot` right after `__init__` (main.py lines 88-113),
before the initial `self._update()` call: empty deques, `interval`
initialised to `UPDATE_MS`, `current_ymin = current_ymax = None`. -/
def initLivePlot : LivePlotState :=
  LivePlotState.mk [] [] none none none none UPDATE_MS

/-- What one call of `LivePlot._update` produces: the new window state,
the error dialog shown (if any), and the delay in ms passed to
`self.after` when a next update was scheduled (`none` when the callback
returned without scheduling). -/
structure UpdateOutcome where
  st : LivePlotState
  errorDialog : Option String
  scheduledNext : Option ℚ
deriving Repr, DecidableEq

/-- Method `LivePlot._update` (main.py lines 116-158).  The two COM getters are
passed in as already-evaluated results: `tRes` for `self.t_get()` (evaluated
first) and `yRes` for `self.y_get()`.  On an exception the code shows an
error dialog with `str(e)` and returns before touching the deques or
scheduling; otherwise it appends one sample to each deque, recomputes the
x-limits as `[max(0, last - 60), max(0, last - 60) + 60]`, conditionally
recomputes the y-limits, and reschedules itself after `self.interval.get()`
milliseconds. -/
def LivePlot_update (st : LivePlotState) (tRes yRes : Except String ℚ) :
    UpdateOutcome :=
  match tRes with
  | Except.error e => UpdateOutcome.mk st (some e) none
  | Except.ok tVal =>
    match yRes with
    | Except.error e => UpdateOutcome.mk st (some e) none
    | Except.ok yVal =>
      let xData := dequeAppend MAX_POINTS st.x tVal
      let yData := dequeAppend MAX_POINTS st.y yVal
      let xlim2 :=
        if 0 < xData.length then
          let xmin := max 0 (xData.getLastD 0 - 60)
          some (xmin, xmin + 60)
        else st.xlim
      let ylimState :=
        if 0 < yData.length then
          if update_ylim st.current_ymin st.current_ymax yData then
            let lo := new_ymin yData * (98 / 100)
            let hi := new_ymax yData * (102 / 100)
            (some lo, some hi, some (lo, hi))
          else (st.current_ymin, st.current_ymax, st.ylim)
        else (st.current_ymin, st.current_ymax, st.ylim)
      UpdateOutcome.mk
        (LivePlotState.mk xData yData ylimState.1 ylimState.2.1
          xlim2 ylimState.2.2 st.interval)
        none (some st.interval)

/-- Iterate `LivePlot_update` over a list of successfully fetched
`(t, y)` samples, keeping only the state. -/
def runUpdates (st : LivePlotState) (samples : List (ℚ × ℚ)) : LivePlotState :=
  samples.foldl
    (fun s p => (LivePlot_update s (Except.ok p.1) (Except.ok p.2)).st) st

/-- Semantics of the refresh `ttk.Scale` (main.py lines 106-107): the
widget constrains the value it writes to the linked `interval` variable
to its configured range `[from_, to]`. -/
def scaleSet (v : ℚ) : ℚ := max SCALE_FROM (min SCALE_TO v)

/-- The `__main__` platform guard (main.py lines 264-269): what the script
does before anything else, as a function of `sys.platform`. -/
inductive MainResult where
  | unsupportedOS (dialogTitle : String) (exitCode : Nat)
  | runApp
deriving Repr, DecidableEq

/-- The guard `if sys.platform != "win32": messagebox.showerror("Unsupported OS", ...);
sys.exit(1)` else `MainApp().mainloop()` (main.py lines 264-269). -/
def scriptMain (platform : String) : MainResult :=
  if platform ≠ "win32" then MainResult.unsupportedOS "Unsupported OS" 1
  else MainResult.runApp

/-- The observable surface of an open simulation case: the `PressureValue`
of a material stream looked up by name on `Flowsheet.MaterialStreams`, and
`Solver.Integrator.GetTime()`. -/
structure SimCase where
  materialStreamPressure : String → ℚ
  integratorTime : ℚ

/-- Method `UniSimConnector.inlet_pressure` (main.py lines 61-62):
`float(self.inlet.PressureValue)` where `self.inlet` was resolved as
`fs.MaterialStreams.Item(INLET_STREAM)` (line 54). -/
def inlet_pressure (sim : SimCase) : ℚ :=
  sim.materialStreamPressure INLET_STREAM

/-- Method `UniSimConnector.outlet_pressure` (main.py lines 64-65):
`float(self.outlet.PressureValue)` where `self.outlet` was resolved as
`fs.MaterialStreams.Item(OUTLET_STREAM)` (line 55). -/
def outlet_pressure (sim : SimCase) : ℚ :=
  sim.materialStreamPressure OUTLET_STREAM

/-- Method `UniSimConnector.sim_time` (main.py lines 67-68):
`float(self.sim.Solver.Integrator.GetTime())`. -/
def sim_time (sim : SimCase) : ℚ :=
  sim.integratorTime

/-- The data a `LivePlot` is constructed with (main.py line 80): a window
title and the two getters, here as functions of the simulation case. -/
structure LivePlotSpec where
  title : String
  y_get : SimCase → ℚ
  t_get : SimCase → ℚ

/-- Method `MainApp._plot_inlet` (main.py lines 225-230): opens a `LivePlot`
titled "Inlet Pressure(kPa)" with `y_get = self.us.inlet_pressure` and
`t_get = self.us.sim_time`. -/
def MainApp_plot_inlet : LivePlotSpec :=
  LivePlotSpec.mk "Inlet Pressure(kPa)" inlet_pressure sim_time

/-- Method `MainApp._plot_outlet` (main.py lines 232-237): opens a `LivePlot`
titled "Outlet Pressure (kPa)" with `y_get = self.us.outlet_pressure` and
`t_get = self.us.sim_time`. -/
def MainApp_plot_outlet : LivePlotSpec :=
  LivePlotSpec.mk "Outlet Pressure (kPa)" outlet_pressure sim_time

/-- One COM automation call attempted by `UniSimConnector.__init__`
(main.py lines 46-57). -/
inductive ComCall where
  | dispatchApp (progId : String)
  | setAppVisible
  | openCase (path : String)
  | setSimVisible
  | getFlowsheet
  | itemStream (name : String)
deriving Repr, DecidableEq

/-- Which COM calls succeed in a given run; a call not listed as
succeeding raises. -/
structure ComEnv where
  dispatchOk : Bool
  setAppVisibleOk : Bool
  openOk : Bool
  setSimVisibleOk : Bool
  flowsheetOk : Bool
  itemOk : String → Bool

/-- Constant `SIM_PATH = os.path.join(BASE_PATH, "assets", "Arbitrary_Unit.usc")`
(main.py line 21), as a function of the runtime base path. -/
def SIM_PATH (basePath : String) : String :=
  basePath ++ "/assets/Arbitrary_Unit.usc"

/-- The sequence of COM calls inside the `try` of
`UniSimConnector.__init__` (main.py lines 46-57), in source order, paired
with whether each succeeds in the given environment. -/
def initCalls (basePath : String) (env : ComEnv) : List (ComCall × Bool) :=
  [ (ComCall.dispatchApp "UniSimDesign.Application", env.dispatchOk),
    (ComCall.setAppVisible, env.setAppVisibleOk),
    (ComCall.openCase (SIM_PATH basePath), env.openOk),
    (ComCall.setSimVisible, env.setSimVisibleOk),
    (ComCall.getFlowsheet, env.flowsheetOk),
    (ComCall.itemStream INLET_STREAM, env.itemOk INLET_STREAM),
    (ComCall.itemStream OUTLET_STREAM, env.itemOk OUTLET_STREAM) ]

/-- Run a sequence of fallible calls in order, as Python's `try` block
does: each call is attempted at most once, and the first one that raises
aborts the rest.  Returns whether the whole block completed and the trace
of calls actually attempted. -/
def attemptCalls : List (ComCall × Bool) → Bool × List ComCall
  | [] => (true, [])
  | (c, ok) :: rest =>
    if ok then
      let r := attemptCalls rest
      (r.1, c :: r.2)
    else (false, [c])

/-- Constructor `UniSimConnector.__init__` (main.py lines 41-59): `connected` starts
`False`; if `win32com` failed to import the constructor returns at once
with no COM call; otherwise the calls of `initCalls` run in order inside
one `try`, `connected = True` is only reached after every one of them
succeeded, and the `except` merely prints — nothing is retried.  Returns
the final `connected` flag and the trace of attempted COM calls. -/
def UniSimConnector_init (hasWin32 : Bool) (basePath : String)
    (env : ComEnv) : Bool × List ComCall :=
  if hasWin32 then attemptCalls (initCalls basePath env)
  else (false, [])

/-- The background image chosen by `MainApp._layout`
(main.py lines 246-249). -/
inductive BgImage where
  | resizedPng (w h : Nat)
  | solidColor (w h : Nat) (color : String)
deriving Repr, DecidableEq

/-- What one `MainApp._layout` pass displays (main.py lines 240-261):
the background image, whether it was lowered below every other item, the
canvas coordinates of the four buttons, and whether the buttons were
raised above the background. -/
structure LayoutResult where
  bg : BgImage
  bgLowered : Bool
  inletPos : ℚ × ℚ
  outletPos : ℚ × ℚ
  startPos : ℚ × ℚ
  stopPos : ℚ × ℚ
  buttonsRaised : Bool
deriving Repr, DecidableEq

/-- Method `MainApp._layout` (main.py lines 240-261) as a function of the canvas
width, height and whether `IMAGE_PATH` exists: returns `none` when the
guard `w < 10 or h < 10` makes the method return without changing
anything, and otherwise the display produced by the pass. -/
def MainApp_layout (w h : Nat) (imageExists : Bool) : Option LayoutResult :=
  if w < 10 ∨ h < 10 then none
  else
    some (LayoutResult.mk
      (if imageExists then BgImage.resizedPng w h
       else BgImage.solidColor w h "#D0D0D0")
      true
      ((15 / 100 : ℚ) * w, (25 / 100 : ℚ) * h)
      ((75 / 100 : ℚ) * w, (65 / 100 : ℚ) * h)
      ((5 / 100 : ℚ) * w, (90 / 100 : ℚ) * h)
      ((20 / 100 : ℚ) * w, (90 / 100 : ℚ) * h)
      true)

/-! ### Helper lemmas about the deque semantics -/

theorem dequeAppend_length (m : Nat) (xs : List ℚ) (v : ℚ) :
    (dequeAppend m xs v).length = min m (xs.length + 1) := by
  unfold dequeAppend
  split
  · next hlt =>
    rw [List.length_drop]
    simp only [List.length_append, List.length_singleton] at hlt ⊢
    omega
  · next hge =>
    simp only [List.length_append, List.length_singleton] at hge ⊢
    omega

theorem dequeAppend_getLastD (m : Nat) (hm : 0 < m) (xs : List ℚ) (v : ℚ) :
    (dequeAppend m xs v).getLastD 0 = v := by
  unfold dequeAppend
  split
  · next hlt =>
    have hlen : (xs ++ [v]).length - m = xs.length + 1 - m := by simp
    have hle : xs.length + 1 - m ≤ xs.length := by omega
    rw [hlen, List.drop_append_of_le_length hle]
    simp
  · simp

theorem dequeAppend_eq_drop (m : Nat) (xs : List ℚ) (v : ℚ)
    (_h : xs.length ≤ m) :
    dequeAppend m xs v = (xs ++ [v]).drop (xs.length + 1 - m) := by
  unfold dequeAppend
  split
  · next hlt =>
    congr 1
    simp
  · next hge =>
    have h0 : xs.length + 1 - m = 0 := by
      simp only [List.length_append, List.length_singleton] at hge
      omega
    rw [h0, List.drop_zero]

theorem dequeAppend_drop_window (m : Nat) (hm : 0 < m) (l : List ℚ) (v : ℚ) :
    dequeAppend m (l.drop (l.length - m)) v =
      (l ++ [v]).drop (l.length + 1 - m) := by
  have hlen : (l.drop (l.length - m)).length = l.length - (l.length - m) :=
    List.length_drop _ _
  have hle : (l.drop (l.length - m)).length ≤ m := by rw [hlen]; omega
  rw [dequeAppend_eq_drop m _ v hle, hlen]
  rcases Nat.le_total l.length m with hcase | hcase
  · have h0 : l.length - m = 0 := by omega
    rw [h0]
    simp
  · have h1 : l.length - (l.length - m) + 1 - m = 1 := by omega
    rw [h1]
    have hne : 1 ≤ (l.drop (l.length - m)).length := by rw [hlen]; omega
    rw [List.drop_append_of_le_length hne, List.drop_drop]
    have h2 : l.length - m + 1 ≤ l.length := by omega
    have h3 : l.length + 1 - m = l.length - m + 1 := by omega
    rw [h3, List.drop_append_of_le_length h2]

/-- The successful branch of `_update` stores exactly the appended deques. -/
theorem update_ok_buffers (st : LivePlotState) (t yv : ℚ) :
    (LivePlot_update st (Except.ok t) (Except.ok yv)).st.x =
        dequeAppend MAX_POINTS st.x t ∧
    (LivePlot_update st (Except.ok t) (Except.ok yv)).st.y =
        dequeAppend MAX_POINTS st.y yv :=
  ⟨rfl, rfl⟩

theorem runUpdates_append (st : LivePlotState) (samples : List (ℚ × ℚ))
    (p : ℚ × ℚ) :
    runUpdates st (samples ++ [p]) =
      (LivePlot_update (runUpdates st samples)
        (Except.ok p.1) (Except.ok p.2)).st := by
  unfold runUpdates
  rw [List.foldl_append]
  rfl

theorem runUpdates_buffers (samples : List (ℚ × ℚ)) :
    (runUpdates initLivePlot samples).x =
      (samples.map Prod.fst).drop (samples.length - MAX_POINTS) ∧
    (runUpdates initLivePlot samples).y =
      (samples.map Prod.snd).drop (samples.length - MAX_POINTS) := by
  induction samples using List.reverseRecOn with
  | nil => exact ⟨rfl, rfl⟩
  | append_singleton l p ih =>
    rw [runUpdates_append]
    have hm : 0 < MAX_POINTS := by decide
    have hx := (update_ok_buffers (runUpdates initLivePlot l) p.1 p.2).1
    have hy := (update_ok_buffers (runUpdates initLivePlot l) p.1 p.2).2
    constructor
    · rw [hx, ih.1]
      have := dequeAppend_drop_window MAX_POINTS hm (l.map Prod.fst) p.1
      rw [List.length_map] at this
      rw [this]
      simp
    · rw [hy, ih.2]
      have := dequeAppend_drop_window MAX_POINTS hm (l.map Prod.snd) p.2
      rw [List.length_map] at this
      rw [this]
      simp

/-! ### Claim theorems -/

/-- Claim C5: when run as a script on any platform where `sys.platform` is not
"win32", the program shows an "Unsupported OS" error dialog and exits with
status code 1 before constructing the main window or making any COM
call. -/
theorem C5_windows_only (p : String) (h : p ≠ "win32") :
    scriptMain p = MainResult.unsupportedOS "Unsupported OS" 1 := by
  simp [scriptMain, h]

theorem C5_windows_only_witness :
    scriptMain "linux" = MainResult.unsupportedOS "Unsupported OS" 1 :=
  C5_windows_only "linux" (by decide)

/-- Claim C2: when the time getter or the pressure getter raises during a chart
update, the only response is an error dialog with the exception text: the
whole window state — in particular the sample buffers `x` and `y` — is
left unchanged, and no further update is scheduled (`scheduledNext =
none`), so polling for that window stops permanently. -/
theorem C2_error_shows_dialog_and_stops (st : LivePlotState) (e : String)
    (yRes : Except String ℚ) (t : ℚ) :
    LivePlot_update st (Except.error e) yRes =
      UpdateOutcome.mk st (some e) none ∧
    LivePlot_update st (Except.ok t) (Except.error e) =
      UpdateOutcome.mk st (some e) none :=
  ⟨rfl, rfl⟩

/-- Claim C3: the next refresh is scheduled via `after` exactly when the update
did not raise, with delay equal to the currently selected interval; the
interval defaults to `UPDATE_MS = 500` ms, is not modified by `_update`
itself, and the slider can set it only to values in `[200, 3000]` ms. -/
theorem C3_timer_driven (st : LivePlotState)
    (tRes yRes : Except String ℚ) (v : ℚ) :
    ((LivePlot_update st tRes yRes).scheduledNext =
      match (LivePlot_update st tRes yRes).errorDialog with
      | some _ => none
      | none => some st.interval) ∧
    (LivePlot_update st tRes yRes).st.interval = st.interval ∧
    initLivePlot.interval = UPDATE_MS ∧ UPDATE_MS = 500 ∧
    SCALE_FROM ≤ scaleSet v ∧ scaleSet v ≤ SCALE_TO ∧
    SCALE_FROM = 200 ∧ SCALE_TO = 3000 := by
  refine ⟨?_, ?_, rfl, rfl, ?_, ?_, rfl, rfl⟩
  · cases tRes with
    | error e => rfl
    | ok t =>
      cases yRes with
      | error e => rfl
      | ok yv => rfl
  · cases tRes with
    | error e => rfl
    | ok t =>
      cases yRes with
      | error e => rfl
      | ok yv => rfl
  · exact le_max_left _ _
  · rw [scaleSet]
    rw [max_le_iff]
    constructor
    · rw [SCALE_FROM, SCALE_TO]
      norm_num
    · exact min_le_left _ _

/-- Claim C9: after every successful update the x-axis limits are exactly
`[max(0, t - 60), max(0, t - 60) + 60]` where `t` is the time sample just
appended (the last element of the buffer), so the visible window is
exactly 60 time units wide and its lower bound is never negative. -/
theorem C9_xaxis_window (st : LivePlotState) (t yv : ℚ) :
    (LivePlot_update st (Except.ok t) (Except.ok yv)).st.xlim =
      some (max 0 (t - 60), max 0 (t - 60) + 60) ∧
    (max 0 (t - 60) + 60) - max 0 (t - 60) = 60 ∧
    (0 : ℚ) ≤ max 0 (t - 60) := by
  refine ⟨?_, by ring, le_max_left _ _⟩
  have hpos : 0 < (dequeAppend MAX_POINTS st.x t).length := by
    rw [dequeAppend_length]
    have : 0 < MAX_POINTS := by decide
    omega
  have hlast : (dequeAppend MAX_POINTS st.x t).getLastD 0 = t :=
    dequeAppend_getLastD MAX_POINTS (by decide) st.x t
  show (if 0 < (dequeAppend MAX_POINTS st.x t).length then
          some (max 0 ((dequeAppend MAX_POINTS st.x t).getLastD 0 - 60),
                max 0 ((dequeAppend MAX_POINTS st.x t).getLastD 0 - 60) + 60)
        else st.xlim) = some (max 0 (t - 60), max 0 (t - 60) + 60)
  rw [if_pos hpos, hlast]

/-- Claim C1: the inlet (resp. outlet) button opens a live chart whose y samples
poll `float(stream.PressureValue)` of the material stream named "Inlet"
(resp. "Outlet") and whose x samples are the integrator time
`float(sim.Solver.Integrator.GetTime())`; moreover the getters of both
charts depend on nothing but the pressures of those two named streams and
the integrator time, so no other stream is ever polled. -/
theorem C1_buttons_poll_named_streams :
    (∀ s : SimCase,
      MainApp_plot_inlet.y_get s = s.materialStreamPressure "Inlet" ∧
      MainApp_plot_outlet.y_get s = s.materialStreamPressure "Outlet" ∧
      MainApp_plot_inlet.t_get s = s.integratorTime ∧
      MainApp_plot_outlet.t_get s = s.integratorTime) ∧
    (∀ s s2 : SimCase,
      s.materialStreamPressure "Inlet" = s2.materialStreamPressure "Inlet" →
      s.materialStreamPressure "Outlet" = s2.materialStreamPressure "Outlet" →
      s.integratorTime = s2.integratorTime →
      MainApp_plot_inlet.y_get s = MainApp_plot_inlet.y_get s2 ∧
      MainApp_plot_outlet.y_get s = MainApp_plot_outlet.y_get s2 ∧
      MainApp_plot_inlet.t_get s = MainApp_plot_inlet.t_get s2 ∧
      MainApp_plot_outlet.t_get s = MainApp_plot_outlet.t_get s2) := by
  constructor
  · intro s
    exact ⟨rfl, rfl, rfl, rfl⟩
  · intro s s2 hIn hOut hT
    exact ⟨hIn, hOut, hT, hT⟩

theorem C1_buttons_poll_named_streams_witness :
    MainApp_plot_inlet.y_get (SimCase.mk (fun _ => 5) 3) =
      MainApp_plot_inlet.y_get
        (SimCase.mk (fun n => if n = "Inlet" then 5 else 5) 3) :=
  (C1_buttons_poll_named_streams.2
    (SimCase.mk (fun _ => 5) 3)
    (SimCase.mk (fun n => if n = "Inlet" then 5 else 5) 3)
    (by simp) (by simp) rfl).1

/-- Claim C4: the connector attempts the COM sequence exactly once, at
construction: with `win32com` absent it makes no COM call and `connected`
stays `False`; otherwise `connected` ends up `True` exactly when every
step — dispatching "UniSimDesign.Application", opening the bundled case,
resolving the two streams — succeeds, in which case the attempted-call
trace is precisely the source-order sequence; the trace never repeats a
call (no retry) and is cut short at the first failure. -/
theorem C4_connector_init (hasWin32 : Bool) (basePath : String)
    (env : ComEnv) :
    ((UniSimConnector_init hasWin32 basePath env).1 = true ↔
      hasWin32 = true ∧ env.dispatchOk = true ∧ env.setAppVisibleOk = true ∧
      env.openOk = true ∧ env.setSimVisibleOk = true ∧
      env.flowsheetOk = true ∧ env.itemOk INLET_STREAM = true ∧
      env.itemOk OUTLET_STREAM = true) ∧
    (UniSimConnector_init hasWin32 basePath env).2.Nodup ∧
    (hasWin32 = false → UniSimConnector_init hasWin32 basePath env =
      (false, [])) ∧
    ((UniSimConnector_init hasWin32 basePath env).1 = true →
      (UniSimConnector_init hasWin32 basePath env).2 =
        [ ComCall.dispatchApp "UniSimDesign.Application",
          ComCall.setAppVisible,
          ComCall.openCase (SIM_PATH basePath),
          ComCall.setSimVisible,
          ComCall.getFlowsheet,
          ComCall.itemStream INLET_STREAM,
          ComCall.itemStream OUTLET_STREAM ]) := by
  obtain ⟨d, av, o, sv, f, it⟩ := env
  simp only [UniSimConnector_init, initCalls]
  cases hasWin32 <;>
    cases d <;> cases av <;> cases o <;> cases sv <;> cases f <;>
    cases h1 : it INLET_STREAM <;> cases h2 : it OUTLET_STREAM <;>
    simp_all [attemptCalls, INLET_STREAM, OUTLET_STREAM, SIM_PATH]

theorem C4_connector_init_witness :
    (UniSimConnector_init true "base"
      (ComEnv.mk true true true true true (fun _ => true))).2 =
      [ ComCall.dispatchApp "UniSimDesign.Application",
        ComCall.setAppVisible,
        ComCall.openCase (SIM_PATH "base"),
        ComCall.setSimVisible,
        ComCall.getFlowsheet,
        ComCall.itemStream INLET_STREAM,
        ComCall.itemStream OUTLET_STREAM ] :=
  (C4_connector_init true "base"
    (ComEnv.mk true true true true true (fun _ => true))).2.2.2 rfl

/-- Claim C6: on a layout pass with canvas size at least 10 by 10 the background
(the PNG resized to the full canvas, or a solid grey image when the file
is missing) is kept below every other item, and the four buttons sit at
the fixed fractional positions (0.15w, 0.25h), (0.75w, 0.65h),
(0.05w, 0.90h), (0.20w, 0.90h), raised above the background; with
`w < 10` or `h < 10` the pass changes nothing. -/
theorem C6_layout (w h : Nat) (img : Bool) :
    (10 ≤ w → 10 ≤ h →
      MainApp_layout w h img = some (LayoutResult.mk
        (if img then BgImage.resizedPng w h
         else BgImage.solidColor w h "#D0D0D0")
        true
        ((15 / 100 : ℚ) * w, (25 / 100 : ℚ) * h)
        ((75 / 100 : ℚ) * w, (65 / 100 : ℚ) * h)
        ((5 / 100 : ℚ) * w, (90 / 100 : ℚ) * h)
        ((20 / 100 : ℚ) * w, (90 / 100 : ℚ) * h)
        true)) ∧
    (w < 10 ∨ h < 10 → MainApp_layout w h img = none) := by
  constructor
  · intro hw hh
    rw [MainApp_layout, if_neg]
    omega
  · intro hsmall
    rw [MainApp_layout, if_pos hsmall]

theorem C6_layout_witness :
    MainApp_layout 880 520 true = some (LayoutResult.mk
      (BgImage.resizedPng 880 520) true
      ((15 / 100 : ℚ) * 880, (25 / 100 : ℚ) * 520)
      ((75 / 100 : ℚ) * 880, (65 / 100 : ℚ) * 520)
      ((5 / 100 : ℚ) * 880, (90 / 100 : ℚ) * 520)
      ((20 / 100 : ℚ) * 880, (90 / 100 : ℚ) * 520)
      true) := by
  have := (C6_layout 880 520 true).1 (by decide) (by decide)
  simpa using this

/-- Claim C8: for a window whose buffers are aligned and within capacity, a
successful update appends exactly one sample to each buffer, dropping the
oldest one exactly when the buffer was full, so `len x = len y ≤ 1200`
always holds; and starting from a fresh window, after any sequence of
successful updates the buffers hold precisely the most recent
`MAX_POINTS` samples in arrival order. -/
theorem C8_buffer_invariant (st : LivePlotState) (t yv : ℚ)
    (hlen : st.x.length = st.y.length) (hle : st.x.length ≤ MAX_POINTS)
    (samples : List (ℚ × ℚ)) :
    (LivePlot_update st (Except.ok t) (Except.ok yv)).st.x.length =
      (LivePlot_update st (Except.ok t) (Except.ok yv)).st.y.length ∧
    (LivePlot_update st (Except.ok t) (Except.ok yv)).st.x.length ≤
      MAX_POINTS ∧
    (LivePlot_update st (Except.ok t) (Except.ok yv)).st.x =
      (st.x ++ [t]).drop (st.x.length + 1 - MAX_POINTS) ∧
    (LivePlot_update st (Except.ok t) (Except.ok yv)).st.y =
      (st.y ++ [yv]).drop (st.y.length + 1 - MAX_POINTS) ∧
    (st.x.length < MAX_POINTS →
      (LivePlot_update st (Except.ok t) (Except.ok yv)).st.x =
        st.x ++ [t] ∧
      (LivePlot_update st (Except.ok t) (Except.ok yv)).st.y =
        st.y ++ [yv]) ∧
    (runUpdates initLivePlot samples).x =
      (samples.map Prod.fst).drop (samples.length - MAX_POINTS) ∧
    (runUpdates initLivePlot samples).y =
      (samples.map Prod.snd).drop (samples.length - MAX_POINTS) := by
  have hx := (update_ok_buffers st t yv).1
  have hy := (update_ok_buffers st t yv).2
  refine ⟨?_, ?_, ?_, ?_, ?_, (runUpdates_buffers samples).1,
    (runUpdates_buffers samples).2⟩
  · rw [hx, hy, dequeAppend_length, dequeAppend_length, hlen]
  · rw [hx, dequeAppend_length]
    omega
  · rw [hx, dequeAppend_eq_drop MAX_POINTS st.x t hle]
  · rw [hy, dequeAppend_eq_drop MAX_POINTS st.y yv (hlen ▸ hle)]
  · intro hlt
    constructor
    · rw [hx, dequeAppend_eq_drop MAX_POINTS st.x t hle]
      have h0 : st.x.length + 1 - MAX_POINTS = 0 := by omega
      rw [h0, List.drop_zero]
    · rw [hy, dequeAppend_eq_drop MAX_POINTS st.y yv (hlen ▸ hle)]
      have h0 : st.y.length + 1 - MAX_POINTS = 0 := by omega
      rw [h0, List.drop_zero]

theorem C8_buffer_invariant_witness :
    (LivePlot_update initLivePlot (Except.ok 1) (Except.ok 2)).st.x =
      [] ++ [(1 : ℚ)] :=
  ((C8_buffer_invariant initLivePlot 1 2 rfl (by decide) []).2.2.2.2.1
    (by decide)).1

/-- Characterization of the y-limit components written by a successful
`_update`: exactly the `update_ylim` branch of main.py lines 150-152. -/
theorem update_ok_ycomponents (st : LivePlotState) (t yv : ℚ) :
    (LivePlot_update st (Except.ok t) (Except.ok yv)).st.current_ymin =
      (if update_ylim st.current_ymin st.current_ymax
            (dequeAppend MAX_POINTS st.y yv) then
        some (new_ymin (dequeAppend MAX_POINTS st.y yv) * (98 / 100))
       else st.current_ymin) ∧
    (LivePlot_update st (Except.ok t) (Except.ok yv)).st.current_ymax =
      (if update_ylim st.current_ymin st.current_ymax
            (dequeAppend MAX_POINTS st.y yv) then
        some (new_ymax (dequeAppend MAX_POINTS st.y yv) * (102 / 100))
       else st.current_ymax) ∧
    (LivePlot_update st (Except.ok t) (Except.ok yv)).st.ylim =
      (if update_ylim st.current_ymin st.current_ymax
            (dequeAppend MAX_POINTS st.y yv) then
        some (new_ymin (dequeAppend MAX_POINTS st.y yv) * (98 / 100),
              new_ymax (dequeAppend MAX_POINTS st.y yv) * (102 / 100))
       else st.ylim) := by
  have hpos : 0 < (dequeAppend MAX_POINTS st.y yv).length := by
    rw [dequeAppend_length]
    have h : 0 < MAX_POINTS := by decide
    omega
  simp only [LivePlot_update]
  rw [if_pos hpos]
  cases hb : update_ylim st.current_ymin st.current_ymax
      (dequeAppend MAX_POINTS st.y yv) <;> simp [hb]

/-- Claim C10 as stated is false: in the window state below the buffered
samples after the update are `[1, 1]`, whose data minimum `1` is not
below `0.99` times the current lower limit `100/99` and whose data
maximum `1` is not above `1.01` times the current upper limit `1000`,
and the limits are cached (not a first update) — yet the code recomputes
the y-limits, because the padding applied to the equal extremes feeds the
trigger comparison as well. -/
theorem C10_counterexample :
    listMin (LivePlot_update
      (LivePlotState.mk [10] [1] (some (100 / 99)) (some 1000)
        (some (0, 60)) (some (100 / 99, 1000)) 500)
      (Except.ok 11) (Except.ok 1)).st.y = 1 ∧
    listMax (LivePlot_update
      (LivePlotState.mk [10] [1] (some (100 / 99)) (some 1000)
        (some (0, 60)) (some (100 / 99, 1000)) 500)
      (Except.ok 11) (Except.ok 1)).st.y = 1 ∧
    ¬ ((1 : ℚ) < (100 / 99) * (99 / 100)) ∧
    ¬ ((1 : ℚ) > 1000 * (101 / 100)) ∧
    (LivePlot_update
      (LivePlotState.mk [10] [1] (some (100 / 99)) (some 1000)
        (some (0, 60)) (some (100 / 99, 1000)) 500)
      (Except.ok 11) (Except.ok 1)).st.ylim ≠ some (100 / 99, 1000) ∧
    (LivePlot_update
      (LivePlotState.mk [10] [1] (some (100 / 99)) (some 1000)
        (some (0, 60)) (some (100 / 99, 1000)) 500)
      (Except.ok 11) (Except.ok 1)).st.ylim =
      some ((1 - 1 / 1000000) * (98 / 100),
            (1 + 1 / 1000000) * (102 / 100)) := by
  norm_num [LivePlot_update, dequeAppend, listMin, listMax, MAX_POINTS,
    update_ylim, new_ymin, new_ymax, EPS, Prod.ext_iff]

/-- Claim C10 (amended): the y-limits are recomputed only on the first
update or when the PADDED data minimum (`np.min` minus `1e-6` when all
buffered samples are equal) is below 0.99 times the current lower limit
or the PADDED data maximum (`np.max` plus `1e-6` likewise) is above 1.01
times the current upper limit; when recomputed they are set to
`[0.98 * paddedmin, 1.02 * paddedmax]`, and otherwise both the limits and
the cached values stay unchanged. -/
theorem C10_ylim_rule (st : LivePlotState) (t yv : ℚ) :
    ((update_ylim st.current_ymin st.current_ymax
        (dequeAppend MAX_POINTS st.y yv) = true →
      (LivePlot_update st (Except.ok t) (Except.ok yv)).st.current_ymin =
        some (new_ymin (dequeAppend MAX_POINTS st.y yv) * (98 / 100)) ∧
      (LivePlot_update st (Except.ok t) (Except.ok yv)).st.current_ymax =
        some (new_ymax (dequeAppend MAX_POINTS st.y yv) * (102 / 100)) ∧
      (LivePlot_update st (Except.ok t) (Except.ok yv)).st.ylim =
        some (new_ymin (dequeAppend MAX_POINTS st.y yv) * (98 / 100),
              new_ymax (dequeAppend MAX_POINTS st.y yv) * (102 / 100))) ∧
     (update_ylim st.current_ymin st.current_ymax
        (dequeAppend MAX_POINTS st.y yv) = false →
      (LivePlot_update st (Except.ok t) (Except.ok yv)).st.current_ymin =
        st.current_ymin ∧
      (LivePlot_update st (Except.ok t) (Except.ok yv)).st.current_ymax =
        st.current_ymax ∧
      (LivePlot_update st (Except.ok t) (Except.ok yv)).st.ylim =
        st.ylim)) ∧
    (update_ylim st.current_ymin st.current_ymax
        (dequeAppend MAX_POINTS st.y yv) = true ↔
      st.current_ymin = none ∨ st.current_ymax = none ∨
      ∃ cmin cmax, st.current_ymin = some cmin ∧
        st.current_ymax = some cmax ∧
        (new_ymin (dequeAppend MAX_POINTS st.y yv) < cmin * (99 / 100) ∨
         new_ymax (dequeAppend MAX_POINTS st.y yv) > cmax * (101 / 100))) := by
  have hc := update_ok_ycomponents st t yv
  constructor
  · constructor
    · intro hb
      rw [hc.1, hc.2.1, hc.2.2, hb]
      simp
    · intro hb
      rw [hc.1, hc.2.1, hc.2.2, hb]
      simp
  · cases hmin : st.current_ymin with
    | none => simp [update_ylim, hmin]
    | some cmin =>
      cases hmax : st.current_ymax with
      | none => simp [update_ylim, hmin, hmax]
      | some cmax => simp [update_ylim, hmin, hmax]

theorem C10_ylim_rule_witness :
    (LivePlot_update initLivePlot (Except.ok 0) (Except.ok 1)).st.current_ymin =
      some (new_ymin (dequeAppend MAX_POINTS initLivePlot.y 1) * (98 / 100)) :=
  ((C10_ylim_rule initLivePlot 0 1).1.1 rfl).1
